import Mathlib

/-!
# fxGlue — verification of the texture–program compositing pipeline

Shallow embedding of `src/GlueTexture.ts` and `src/GlueUtils.ts` from the
fxGlue repository.  JavaScript numbers are modelled as rationals (`ℚ`);
JavaScript truthiness of an optional number (`undefined`, `0` falsy) is
modelled explicitly.  Methods that throw are modelled as `Except`-valued
state transformers: an `Except.error` result means the exception was thrown
before any state mutation took effect; `Except.ok` carries the updated
state and/or the observable result.
-/

/-- The JavaScript error kinds thrown by the embedded code, named as in the
specification error taxonomy. -/
inductive GlueError where
  | sourceNotReady
  | disposed
  | duplicateName (name : String)
  | invalidBlendMode
  | unsupportedSourceType
  deriving Repr, DecidableEq

/-- `GlueSourceType` from `GlueUtils.ts`: an image, video or canvas element,
carrying exactly the fields the embedded functions inspect
(`complete`/`naturalWidth`/`naturalHeight` for images, `readyState`/
`videoWidth`/`videoHeight` for videos, `width`/`height` for canvases). -/
inductive GlueSourceType where
  | image (complete : Bool) (naturalWidth naturalHeight : ℚ)
  | video (readyState videoWidth videoHeight : ℚ)
  | canvas (width height : ℚ)
  deriving Repr, DecidableEq

/-- `glueIsSourceLoaded` from `GlueUtils.ts`.  A `null`/`undefined` source
(modelled by `Option.none`) is not loaded; an image is loaded when
`complete && naturalHeight > 0`; a video when `readyState > 2`; anything
else (a canvas) is loaded. -/
def glueIsSourceLoaded : Option GlueSourceType → Bool
  | Option.none => false
  | Option.some (GlueSourceType.image complete _ naturalHeight) =>
      complete && decide (naturalHeight > 0)
  | Option.some (GlueSourceType.video readyState _ _) =>
      decide (readyState > 2)
  | Option.some (GlueSourceType.canvas _ _) => true

/-- `glueGetSourceDimensions` from `GlueUtils.ts`: `[naturalWidth,
naturalHeight]` for images, `[videoWidth, videoHeight]` for videos,
`[width, height]` for canvases.  (The `throw` branch of the source is
unreachable here: the three constructors cover `GlueSourceType`.) -/
def glueGetSourceDimensions : GlueSourceType → ℚ × ℚ
  | GlueSourceType.image _ nw nh => (nw, nh)
  | GlueSourceType.video _ vw vh => (vw, vh)
  | GlueSourceType.canvas w h => (w, h)

/-- Modelled from the spec: the blend-mode enumeration `GlueBlendMode` lives
in `GlueShaderSources.ts`, which is not under `src/`.  The spec describes it
as "a closed enumeration (e.g. normal, multiply, screen, …) known at build
time"; it is a TypeScript string enum (`draw` concatenates a mode value into
a program name), so it is modelled as a concrete list of mode strings. -/
def glueBlendModeValues : List String := ["normal", "multiply", "screen"]

/-- Modelled from the spec: the shared default fragment shader source from
`GlueShaderSources.ts` (not under `src/`); its text is opaque to this core. -/
def defaultFragmentShader : String := "~defaultFragmentShaderSource"

/-- Modelled from the spec: the shared default vertex shader source from
`GlueShaderSources.ts` (not under `src/`); its text is opaque to this core. -/
def defaultVertexShader : String := "~defaultVertexShaderSource"

/-- Modelled from the spec: `blendFragmentShaders` from
`GlueShaderSources.ts` (not under `src/`) maps each blend mode 1:1 to a
precompiled fragment-shader source; the text is opaque to this core. -/
def blendFragmentShaders (mode : String) : String :=
  "~blendFragmentShaderSource_" ++ mode

/-- Modelled from the spec: `GlueProgram` (in `GlueProgram.ts`, not under
`src/`) is an external collaborator compiled from "(fragmentSource,
vertexSource, importTable)"; imports are "consumed by the preprocessor when
subsequently registered programs are built", so a program records the shader
sources and the import table it was built from. -/
structure GlueProgram where
  fragmentShader : String
  vertexShader : String
  imports : List (String × String)
  deriving Repr, DecidableEq

/-- Lookup in a JavaScript `Record<string, T>`, modelled as an association
list. -/
def recordGet {α : Type} (r : List (String × α)) (k : String) : Option α :=
  (r.find? (fun e => e.1 = k)).map Prod.snd

/-- Assignment `r[k] = v` in a JavaScript `Record<string, T>`: replaces any
existing binding of `k`. -/
def recordSet {α : Type} (r : List (String × α)) (k : String) (v : α) :
    List (String × α) :=
  r.filter (fun e => e.1 ≠ k) ++ [(k, v)]

/-- `delete r[k]` in a JavaScript `Record<string, T>`. -/
def recordDelete {α : Type} (r : List (String × α)) (k : String) :
    List (String × α) :=
  r.filter (fun e => e.1 ≠ k)

/-- JavaScript truthiness of an optional number: `undefined` and `0` are
falsy, every other rational is truthy. -/
def jsTruthyNum : Option ℚ → Bool
  | Option.none => false
  | Option.some q => decide (q ≠ 0)

/-- JavaScript `s || d` for an optional string `s`: `undefined` and the
empty string are falsy. -/
def jsOrString (s : Option String) (d : String) : String :=
  match s with
  | Option.none => d
  | Option.some t => if t = "" then d else t

/-- The state of a `GlueTexture` (the fields of the class in
`GlueTexture.ts`, without their underscore prefix).  `textureDeleted`
records the effect of `gl.deleteTexture` in `dispose()`; other GPU calls
(`texImage2D`, `bindTexture`, …) carry no state observed by the embedded
code and are not modelled. -/
structure GlueTexture where
  width : ℚ
  height : ℚ
  disposed : Bool
  programs : List (String × GlueProgram)
  imports : List (String × String)
  source : GlueSourceType
  textureDeleted : Bool
  deriving Repr, DecidableEq

/-- `GlueTextureDrawOptions` from `GlueTexture.ts` with the defaults of the
destructuring in `draw` (`x = 0`, `y = 0`, `opacity = 1`,
`mode = GlueBlendMode.NORMAL`). -/
structure GlueTextureDrawOptions where
  x : ℚ := 0
  y : ℚ := 0
  width : Option ℚ := Option.none
  height : Option ℚ := Option.none
  opacity : ℚ := 1
  mode : String := "normal"
  mask : Option (String ⊕ GlueSourceType) := Option.none
  deriving Repr, DecidableEq

/-- The observable dispatch `blendProgram.apply(uniforms, mask)` at the end
of `GlueTexture.draw`: which program was invoked, the uniform values
`iImage`, `iSize`, `iOffset`, `iOpacity`, and the mask argument. -/
structure DrawDispatch where
  program : GlueProgram
  iImage : ℚ
  iSize : ℚ × ℚ
  iOffset : ℚ × ℚ
  iOpacity : ℚ
  mask : Option (String ⊕ GlueSourceType)
  deriving Repr, DecidableEq

namespace GlueTexture

/-- `GlueTexture.checkDisposed`: throws `Disposed` when the `_disposed`
flag is set. -/
def checkDisposed (t : GlueTexture) : Except GlueError Unit :=
  if t.disposed then Except.error GlueError.disposed else Except.ok ()

/-- `GlueTexture.hasProgram`: `!!this._programs[name]` — no disposed
check. -/
def hasProgram (t : GlueTexture) (name : String) : Bool :=
  (recordGet t.programs name).isSome

/-- `GlueTexture.program`: disposed check, then registry lookup
(`undefined`, i.e. `Option.none`, when absent). -/
def program (t : GlueTexture) (name : String) :
    Except GlueError (Option GlueProgram) :=
  match t.checkDisposed with
  | Except.error e => Except.error e
  | Except.ok _ => Except.ok (recordGet t.programs name)

/-- `GlueTexture.use`: disposed check, then binds the GPU texture to the
given unit (a pure GPU side effect, no state observed by this core). -/
def use (t : GlueTexture) (_target : Option ℚ) : Except GlueError Unit :=
  t.checkDisposed

/-- `GlueTexture.registerProgram`: disposed check; `DuplicateName` if the
registry already holds `name`; otherwise builds a `GlueProgram` from the
given shaders (or the defaults, via JavaScript `||`) and the current import
table, stores it and returns it. -/
def registerProgram (t : GlueTexture) (name : String)
    (fragmentShader vertexShader : Option String) :
    Except GlueError (GlueTexture × GlueProgram) :=
  match t.checkDisposed with
  | Except.error e => Except.error e
  | Except.ok _ =>
      if (recordGet t.programs name).isSome then
        Except.error (GlueError.duplicateName name)
      else
        let p : GlueProgram :=
          { fragmentShader := jsOrString fragmentShader defaultFragmentShader
            vertexShader := jsOrString vertexShader defaultVertexShader
            imports := t.imports }
        Except.ok ({ t with programs := recordSet t.programs name p }, p)

/-- `GlueTexture.deregisterProgram`: disposed check, then disposes and
removes the entry (no error when the name is absent). -/
def deregisterProgram (t : GlueTexture) (name : String) :
    Except GlueError GlueTexture :=
  match t.checkDisposed with
  | Except.error e => Except.error e
  | Except.ok _ => Except.ok { t with programs := recordDelete t.programs name }

/-- `GlueTexture.registerImport`: disposed check, then unconditional
overwrite of the import table entry. -/
def registerImport (t : GlueTexture) (name source : String) :
    Except GlueError GlueTexture :=
  match t.checkDisposed with
  | Except.error e => Except.error e
  | Except.ok _ => Except.ok { t with imports := recordSet t.imports name source }

/-- `GlueTexture.deregisterImport`: disposed check, then removal. -/
def deregisterImport (t : GlueTexture) (name : String) :
    Except GlueError GlueTexture :=
  match t.checkDisposed with
  | Except.error e => Except.error e
  | Except.ok _ => Except.ok { t with imports := recordDelete t.imports name }

/-- `GlueTexture.update`: disposed check; if a source is given, it must be
loaded (`SourceNotReady` thrown otherwise, before any mutation) and then
replaces the stored dimensions and source reference; finally the pixel data
is re-uploaded (a GPU side effect with no modelled state). -/
def update (t : GlueTexture) (source : Option GlueSourceType) :
    Except GlueError GlueTexture :=
  match t.checkDisposed with
  | Except.error e => Except.error e
  | Except.ok _ =>
      match source with
      | Option.none => Except.ok t
      | Option.some s =>
          if !glueIsSourceLoaded (Option.some s) then
            Except.error GlueError.sourceNotReady
          else
            Except.ok { t with
              width := (glueGetSourceDimensions s).1
              height := (glueGetSourceDimensions s).2
              source := s }

/-- `GlueTexture.dispose`: deletes the GPU texture.  Faithful to the
source, it does NOT set the `_disposed` flag that `checkDisposed` reads. -/
def dispose (t : GlueTexture) : GlueTexture :=
  { t with textureDeleted := true }

/-- `GlueTexture.draw`: bind via `use`; resolve the size uniform (the
explicit `width`/`height` only when both are JavaScript-truthy, else the
stored dimensions); look up the blend program via `program`
(`InvalidBlendMode` when absent); dispatch `apply` with `iImage = 1`, the
resolved size, the offset normalized by the stored dimensions, the given
opacity and the mask. -/
def draw (t : GlueTexture) (o : GlueTextureDrawOptions) :
    Except GlueError DrawDispatch :=
  match t.use Option.none with
  | Except.error e => Except.error e
  | Except.ok _ =>
      let size : ℚ × ℚ :=
        if jsTruthyNum o.width && jsTruthyNum o.height then
          (o.width.getD 0, o.height.getD 0)
        else
          (t.width, t.height)
      match t.program ("~blend_" ++ o.mode) with
      | Except.error e => Except.error e
      | Except.ok Option.none => Except.error GlueError.invalidBlendMode
      | Except.ok (Option.some p) =>
          Except.ok
            { program := p
              iImage := 1
              iSize := size
              iOffset := (o.x / t.width, o.y / t.height)
              iOpacity := o.opacity
              mask := o.mask }

end GlueTexture

/-- The loop in the `GlueTexture` constructor that registers one
`"~blend_" + mode` program per blend-mode value. -/
def registerBlendPrograms :
    GlueTexture → List String → Except GlueError GlueTexture
  | t, [] => Except.ok t
  | t, m :: ms =>
      match t.registerProgram ("~blend_" ++ m)
          (Option.some (blendFragmentShaders m)) Option.none with
      | Except.error e => Except.error e
      | Except.ok r => registerBlendPrograms r.1 ms

/-- The `GlueTexture` constructor: requires a loaded source
(`SourceNotReady` otherwise); allocates and uploads the GPU texture (GPU
side effects, not modelled); registers the `~default` program and one
`~blend_` program per blend mode; stores the source dimensions; and
activates the default program. -/
def newGlueTexture (source : Option GlueSourceType) :
    Except GlueError GlueTexture :=
  if !glueIsSourceLoaded source then Except.error GlueError.sourceNotReady
  else
    match source with
    | Option.none => Except.error GlueError.sourceNotReady
    | Option.some s =>
        let t0 : GlueTexture :=
          { width := 0, height := 0, disposed := false, programs := []
            imports := [], source := s, textureDeleted := false }
        match t0.registerProgram "~default" Option.none Option.none with
        | Except.error e => Except.error e
        | Except.ok r1 =>
            match registerBlendPrograms r1.1 glueBlendModeValues with
            | Except.error e => Except.error e
            | Except.ok t2 =>
                let t3 : GlueTexture := { t2 with
                  width := (glueGetSourceDimensions s).1
                  height := (glueGetSourceDimensions s).2 }
                match t3.program "~default" with
                | Except.error e => Except.error e
                | Except.ok _ => Except.ok t3

/-- The program registry every freshly constructed texture holds: the
default program and one program per blend-mode value, all built with an
empty import table. -/
def blendRegistry : List (String × GlueProgram) :=
  [("~default",
    { fragmentShader := defaultFragmentShader
      vertexShader := defaultVertexShader
      imports := [] }),
   ("~blend_normal",
    { fragmentShader := blendFragmentShaders "normal"
      vertexShader := defaultVertexShader
      imports := [] }),
   ("~blend_multiply",
    { fragmentShader := blendFragmentShaders "multiply"
      vertexShader := defaultVertexShader
      imports := [] }),
   ("~blend_screen",
    { fragmentShader := blendFragmentShaders "screen"
      vertexShader := defaultVertexShader
      imports := [] })]

/-- Constructing a texture from a loaded source succeeds and yields the
state with the source dimensions, the full blend registry and no imports. -/
theorem newGlueTexture_ok (s : GlueSourceType)
    (h : glueIsSourceLoaded (Option.some s) = true) :
    newGlueTexture (Option.some s) = Except.ok
      { width := (glueGetSourceDimensions s).1
        height := (glueGetSourceDimensions s).2
        disposed := false
        programs := blendRegistry
        imports := []
        source := s
        textureDeleted := false } := by
  unfold newGlueTexture
  rw [h]
  rfl

/-- A concrete texture as produced by the constructor on a loaded 200×100
canvas source. -/
def texCanvas200 : GlueTexture :=
  { width := 200, height := 100, disposed := false, programs := blendRegistry
    imports := [], source := GlueSourceType.canvas 200 100
    textureDeleted := false }

/-- `Except` success as a boolean observation. -/
def exceptIsOk {ε α : Type} : Except ε α → Bool
  | Except.ok _ => true
  | Except.error _ => false

/-- `find?` never hits an element that a preceding `filter` removed. -/
theorem find?_filter_compl {α : Type} (r : List (String × α)) (k : String) :
    (r.filter (fun e => e.1 ≠ k)).find? (fun e => e.1 = k) = Option.none := by
  rw [List.find?_eq_none]
  intro x hx
  rcases List.mem_filter.mp hx with ⟨_, hne⟩
  simpa using of_decide_eq_true hne

/-- `find?` commutes with a `filter` that never removes a match. -/
theorem find?_filter_of_imp {α : Type} (l : List α) (p q : α → Bool)
    (h : ∀ x, p x = true → q x = true) :
    (l.filter q).find? p = l.find? p := by
  induction l with
  | nil => rfl
  | cons a l ih =>
      by_cases hq : q a = true
      · rw [List.filter_cons_of_pos hq]
        by_cases hp : p a = true
        · rw [List.find?_cons_of_pos _ hp, List.find?_cons_of_pos _ hp]
        · rw [List.find?_cons_of_neg _ hp, List.find?_cons_of_neg _ hp, ih]
      · have hp : ¬ p a = true := fun hpa => hq (h a hpa)
        rw [List.filter_cons_of_neg (by simpa using hq),
          List.find?_cons_of_neg _ hp, ih]

/-- Reading back the key just assigned in a record. -/
theorem recordGet_recordSet_self {α : Type} (r : List (String × α))
    (k : String) (v : α) :
    recordGet (recordSet r k v) k = Option.some v := by
  unfold recordGet recordSet
  rw [List.find?_append, find?_filter_compl]
  simp

/-- Assigning one key leaves every other key unchanged. -/
theorem recordGet_recordSet_ne {α : Type} (r : List (String × α))
    (k k2 : String) (v : α) (h : k2 ≠ k) :
    recordGet (recordSet r k v) k2 = recordGet r k2 := by
  unfold recordGet recordSet
  rw [List.find?_append, find?_filter_of_imp]
  · have hone : List.find? (fun e => e.1 = k2) [(k, v)] = Option.none := by
      simp [List.find?, Ne.symm h]
    rw [hone]
    cases List.find? (fun e => e.1 = k2) r <;> rfl
  · intro x hx
    have hx2 : x.1 = k2 := of_decide_eq_true hx
    simp [hx2, h]

/-- C1: the claim is refuted by the code: `dispose()` (GlueTexture.ts:275-277)
deletes the GPU texture but never sets the `_disposed` flag read by
`checkDisposed`, so on a texture constructed from a loaded 200×100 canvas,
after `dispose()` the guarded operations `update`, `use`, `program` and
`registerProgram` all still succeed instead of failing with `Disposed`. -/
theorem C1_guarded_ops_succeed_after_dispose :
    newGlueTexture (Option.some (GlueSourceType.canvas 200 100))
      = Except.ok texCanvas200 ∧
    texCanvas200.dispose.disposed = false ∧
    texCanvas200.dispose.update Option.none = Except.ok texCanvas200.dispose ∧
    texCanvas200.dispose.use Option.none = Except.ok () ∧
    texCanvas200.dispose.program "~default"
      = Except.ok (recordGet blendRegistry "~default") ∧
    exceptIsOk (texCanvas200.dispose.registerProgram "user"
      Option.none Option.none) = true :=
  ⟨rfl, rfl, rfl, rfl, rfl, rfl⟩

/-- C5: on a non-disposed texture, `update` with a source that fails the
readiness check throws `SourceNotReady`; the thrown error precedes the
assignments to the stored width, height and source, so the state is
unchanged (an `Except.error` result carries no mutated state). -/
theorem C5_update_with_unready_source_fails (t : GlueTexture)
    (hd : t.disposed = false) (s : GlueSourceType)
    (h : glueIsSourceLoaded (Option.some s) = false) :
    t.update (Option.some s) = Except.error GlueError.sourceNotReady := by
  simp [GlueTexture.update, GlueTexture.checkDisposed, hd, h]

/-- Witness for C5: a fresh 200×100 canvas texture rejects an update with a
video source whose `readyState` is 0. -/
theorem C5_witness :
    texCanvas200.update (Option.some (GlueSourceType.video 0 10 10))
      = Except.error GlueError.sourceNotReady :=
  C5_update_with_unready_source_fails texCanvas200 rfl
    (GlueSourceType.video 0 10 10) (by norm_num [glueIsSourceLoaded])

/-- C6: on a non-disposed texture whose registry already binds `name` to a
program `p`, any further `registerProgram` under `name` throws
`DuplicateName` (the thrown error precedes the registry assignment, so the
registry is unchanged) and `p` stays retrievable via `program name`. -/
theorem C6_duplicate_program_name_rejected (t : GlueTexture) (name : String)
    (p : GlueProgram) (hd : t.disposed = false)
    (hp : recordGet t.programs name = Option.some p)
    (fs vs : Option String) :
    t.registerProgram name fs vs
      = Except.error (GlueError.duplicateName name) ∧
    t.program name = Except.ok (Option.some p) := by
  constructor
  · simp [GlueTexture.registerProgram, GlueTexture.checkDisposed, hd, hp]
  · simp [GlueTexture.program, GlueTexture.checkDisposed, hd, hp]

/-- Witness for C6: re-registering `~default` on a fresh texture fails with
`DuplicateName` and the original default program stays retrievable. -/
theorem C6_witness :
    texCanvas200.registerProgram "~default" Option.none Option.none
      = Except.error (GlueError.duplicateName "~default") ∧
    texCanvas200.program "~default" = Except.ok (Option.some
      { fragmentShader := defaultFragmentShader
        vertexShader := defaultVertexShader
        imports := [] }) :=
  C6_duplicate_program_name_rejected texCanvas200 "~default"
    { fragmentShader := defaultFragmentShader
      vertexShader := defaultVertexShader
      imports := [] }
    rfl rfl Option.none Option.none

/-- C7: on a non-disposed texture, `draw` with a blend mode that has no
program registered under `"~blend_" + mode` throws `InvalidBlendMode`; the
`Except.error` result means no program dispatch took place. -/
theorem C7_draw_unknown_mode_fails (t : GlueTexture)
    (hd : t.disposed = false) (o : GlueTextureDrawOptions)
    (h : recordGet t.programs ("~blend_" ++ o.mode) = Option.none) :
    t.draw o = Except.error GlueError.invalidBlendMode := by
  simp [GlueTexture.draw, GlueTexture.use, GlueTexture.program,
    GlueTexture.checkDisposed, hd, h]

/-- Witness for C7: `draw({mode: "nonexistent"})` on a fresh texture fails
with `InvalidBlendMode`. -/
theorem C7_witness :
    texCanvas200.draw { mode := "nonexistent" }
      = Except.error GlueError.invalidBlendMode :=
  C7_draw_unknown_mode_fails texCanvas200 rfl { mode := "nonexistent" } rfl

/-- C9: `hasProgram` carries no disposed guard: it is a total boolean lookup,
unchanged by `dispose()` and answering membership even when the `_disposed`
flag is set — whereas `program` checks the flag first and throws `Disposed`
before its lookup. -/
theorem C9_hasProgram_has_no_disposed_guard (t : GlueTexture) (name : String) :
    t.dispose.hasProgram name = t.hasProgram name ∧
    (t.hasProgram name = true ↔
      ∃ p, recordGet t.programs name = Option.some p) ∧
    (t.disposed = true →
      t.program name = Except.error GlueError.disposed) ∧
    (t.disposed = false →
      t.program name = Except.ok (recordGet t.programs name)) := by
  refine ⟨rfl, ?_, ?_, ?_⟩
  · simp [GlueTexture.hasProgram, Option.isSome_iff_exists]
  · intro hd
    simp [GlueTexture.program, GlueTexture.checkDisposed, hd]
  · intro hd
    simp [GlueTexture.program, GlueTexture.checkDisposed, hd]

/-- A texture state with the `_disposed` flag set, to exercise the guard in
`program` against the unguarded `hasProgram`. -/
def texFlagged : GlueTexture := { texCanvas200 with disposed := true }

/-- Witness for C9: on a flag-set texture, `hasProgram "~default"` still
answers `true` while `program "~default"` throws `Disposed`. -/
theorem C9_witness :
    texFlagged.hasProgram "~default" = true ∧
    texFlagged.program "~default" = Except.error GlueError.disposed := by
  have h := C9_hasProgram_has_no_disposed_guard texFlagged "~default"
  exact ⟨rfl, h.2.2.1 rfl⟩

/-- C2 (amended): the size uniform of a successful `draw` equals the
explicit `(width, height)` pair whenever both are given and nonzero
(negative values are passed through uninterpreted), and equals the stored
native dimensions otherwise — in particular when either explicit dimension
is absent or `0`, since JavaScript truthiness in `if (width && height)`
treats `0` like an absent value. -/
theorem C2_size_resolution (t : GlueTexture) (o : GlueTextureDrawOptions)
    (d : DrawDispatch) (h : t.draw o = Except.ok d) :
    (∀ w hh, o.width = Option.some w → o.height = Option.some hh →
      w ≠ 0 → hh ≠ 0 → d.iSize = (w, hh)) ∧
    ((o.width = Option.none ∨ o.height = Option.none ∨
        o.width = Option.some 0 ∨ o.height = Option.some 0) →
      d.iSize = (t.width, t.height)) := by
  unfold GlueTexture.draw GlueTexture.use GlueTexture.program
    GlueTexture.checkDisposed at h
  by_cases hd : t.disposed
  · simp [hd] at h
  · simp only [hd, Bool.false_eq_true, if_false] at h
    rcases hm : recordGet t.programs ("~blend_" ++ o.mode) with _ | p
    · rw [hm] at h
      simp at h
    · rw [hm] at h
      simp only [Except.ok.injEq] at h
      subst h
      constructor
      · intro w hh hw hhh hw0 hh0
        simp [hw, hhh, jsTruthyNum, hw0, hh0]
      · rintro (h1 | h1 | h1 | h1) <;> simp [h1, jsTruthyNum]

/-- C2 counterexample: the claim as stated fails at `width = 0`: on a fresh
200×100 canvas texture, `draw({width: 0, height: 50})` resolves the size
uniform to the native `(200, 100)`, not to the explicit `(0, 50)` — a zero
explicit dimension is not passed through. -/
theorem C2_counterexample_zero_width :
    (texCanvas200.draw
        { width := Option.some 0, height := Option.some 50 }).map
      DrawDispatch.iSize = Except.ok ((200 : ℚ), (100 : ℚ)) ∧
    ((200 : ℚ), (100 : ℚ)) ≠ ((0 : ℚ), (50 : ℚ)) := by
  refine ⟨rfl, fun hcontra => ?_⟩
  rw [Prod.mk.injEq] at hcontra
  norm_num at hcontra

/-- The dispatch produced by a successful `draw` with explicit size 30×40
on the fresh 200×100 canvas texture. -/
def dSize3040 : DrawDispatch :=
  { program :=
      { fragmentShader := blendFragmentShaders "normal"
        vertexShader := defaultVertexShader
        imports := [] }
    iImage := 1
    iSize := (30, 40)
    iOffset := (0 / 200, 0 / 100)
    iOpacity := 1
    mask := Option.none }

/-- Witness for C2: an explicit nonzero 30×40 size is passed through, and a
draw with `width = 0` falls back to the native dimensions. -/
theorem C2_witness :
    dSize3040.iSize = ((30 : ℚ), (40 : ℚ)) := by
  have h := C2_size_resolution texCanvas200
    { width := Option.some 30, height := Option.some 40 } dSize3040 rfl
  exact h.1 30 40 rfl rfl (by norm_num) (by norm_num)

/-- C3: a successful `draw` dispatches the program registered for the
requested blend mode with offset uniform `(x / width, y / height)`
normalized by the stored texture dimensions (independent of any explicit
output size), opacity passed through unclamped, the image unit fixed to 1,
and the mask forwarded unmodified. -/
theorem C3_draw_dispatch_uniforms (t : GlueTexture)
    (o : GlueTextureDrawOptions) (d : DrawDispatch)
    (h : t.draw o = Except.ok d) :
    d.iOffset = (o.x / t.width, o.y / t.height) ∧
    d.iOpacity = o.opacity ∧
    d.iImage = 1 ∧
    d.mask = o.mask ∧
    recordGet t.programs ("~blend_" ++ o.mode) = Option.some d.program := by
  unfold GlueTexture.draw GlueTexture.use GlueTexture.program
    GlueTexture.checkDisposed at h
  by_cases hd : t.disposed
  · simp [hd] at h
  · simp only [hd, Bool.false_eq_true, if_false] at h
    rcases hm : recordGet t.programs ("~blend_" ++ o.mode) with _ | p
    · rw [hm] at h
      simp at h
    · rw [hm] at h
      simp only [Except.ok.injEq] at h
      subst h
      exact ⟨rfl, rfl, rfl, rfl, rfl⟩

/-- The dispatch produced by
`draw({x: 10, y: 20, opacity: 0.5, mode: "multiply"})` on the fresh 200×100
canvas texture. -/
def dMultiply : DrawDispatch :=
  { program :=
      { fragmentShader := blendFragmentShaders "multiply"
        vertexShader := defaultVertexShader
        imports := [] }
    iImage := 1
    iSize := (200, 100)
    iOffset := (10 / 200, 20 / 100)
    iOpacity := 1 / 2
    mask := Option.none }

/-- Witness for C3: the worked example of the claim — on a 200×100 texture,
`draw({x: 10, y: 20, opacity: 0.5, mode: "multiply"})` dispatches the
multiply program with offset `(0.05, 0.2)`, size `(200, 100)`, opacity
`0.5`, image unit 1 and no mask. -/
theorem C3_witness :
    dMultiply.iOffset = ((1 : ℚ) / 20, (1 : ℚ) / 5) ∧
    dMultiply.iSize = ((200 : ℚ), (100 : ℚ)) ∧
    dMultiply.iOpacity = 1 / 2 ∧
    dMultiply.iImage = 1 ∧
    dMultiply.mask = Option.none ∧
    recordGet texCanvas200.programs "~blend_multiply"
      = Option.some dMultiply.program := by
  have h := C3_draw_dispatch_uniforms texCanvas200
    { x := 10, y := 20, opacity := 1 / 2, mode := "multiply" } dMultiply rfl
  refine ⟨?_, rfl, h.2.1, h.2.2.1, h.2.2.2.1, h.2.2.2.2⟩
  rw [h.1]
  show ((10 : ℚ) / 200, (20 : ℚ) / 100) = ((1 : ℚ) / 20, (1 : ℚ) / 5)
  norm_num

/-- C4: constructing a texture from a loaded source registers exactly
`len(BlendMode) + 1` programs — the default program plus one program named
`"~blend_" + m` per blend-mode value `m` — so `hasProgram ("~blend_" + m)`
answers `true` for every mode immediately after construction. -/
theorem C4_constructor_registers_blend_programs (s : GlueSourceType)
    (h : glueIsSourceLoaded (Option.some s) = true) (t : GlueTexture)
    (ht : newGlueTexture (Option.some s) = Except.ok t) :
    (∀ m ∈ glueBlendModeValues, t.hasProgram ("~blend_" ++ m) = true) ∧
    t.hasProgram "~default" = true ∧
    t.programs.length = glueBlendModeValues.length + 1 := by
  rw [newGlueTexture_ok s h] at ht
  simp only [Except.ok.injEq] at ht
  subst ht
  refine ⟨?_, rfl, rfl⟩
  intro m hm
  simp only [glueBlendModeValues, List.mem_cons, List.not_mem_nil,
    or_false] at hm
  rcases hm with rfl | rfl | rfl <;> rfl

/-- Witness for C4: on the fresh 200×100 canvas texture, the multiply blend
program is present and the registry holds `len(BlendMode) + 1 = 4`
programs. -/
theorem C4_witness :
    texCanvas200.hasProgram "~blend_multiply" = true ∧
    texCanvas200.hasProgram "~default" = true ∧
    texCanvas200.programs.length = glueBlendModeValues.length + 1 := by
  have h := C4_constructor_registers_blend_programs
    (GlueSourceType.canvas 200 100) rfl texCanvas200 rfl
  exact ⟨h.1 "multiply" (by simp [glueBlendModeValues]), h.2.1, h.2.2⟩

/-- C8: `registerImport` overwrites unconditionally: after registering
`srcA` then `srcB` under the same name, the import table maps that name to
`srcB` only, every other name is untouched, and every subsequently
registered program is built from exactly that table. -/
theorem C8_register_import_overwrites (t : GlueTexture)
    (name srcA srcB : String) (tA tB : GlueTexture)
    (hA : t.registerImport name srcA = Except.ok tA)
    (hB : tA.registerImport name srcB = Except.ok tB) :
    recordGet tB.imports name = Option.some srcB ∧
    (∀ k, k ≠ name → recordGet tB.imports k = recordGet t.imports k) ∧
    (∀ pname fs vs tP p,
      tB.registerProgram pname fs vs = Except.ok (tP, p) →
      p.imports = tB.imports) := by
  unfold GlueTexture.registerImport GlueTexture.checkDisposed at hA hB
  by_cases hd : t.disposed
  · simp [hd] at hA
  · simp only [hd, Bool.false_eq_true, if_false, Except.ok.injEq] at hA
    subst hA
    simp only [hd, Bool.false_eq_true, if_false, Except.ok.injEq] at hB
    subst hB
    refine ⟨recordGet_recordSet_self _ _ _, ?_, ?_⟩
    · intro k hk
      rw [recordGet_recordSet_ne _ _ _ _ hk, recordGet_recordSet_ne _ _ _ _ hk]
    · intro pname fs vs tP p hreg
      unfold GlueTexture.registerProgram GlueTexture.checkDisposed at hreg
      simp only [hd, Bool.false_eq_true, if_false] at hreg
      by_cases hdup :
        (recordGet (recordSet (recordSet t.imports name srcA) name srcB
          |> fun im => ({ t with imports := im } : GlueTexture).programs)
          pname).isSome
      · simp [hdup] at hreg
      · simp only [hdup, Bool.false_eq_true, if_false,
          Except.ok.injEq, Prod.mk.injEq] at hreg
        rw [← hreg.2]

/-- The import table after `registerImport("foo","A")` then
`registerImport("foo","B")` on the fresh 200×100 canvas texture. -/
def texFooB : GlueTexture :=
  { texCanvas200 with
    imports := recordSet (recordSet [] "foo" "A") "foo" "B" }

/-- Witness for C8: after the two registrations, `"foo"` maps to `"B"` and
an unrelated key is unchanged. -/
theorem C8_witness :
    recordGet texFooB.imports "foo" = Option.some "B" ∧
    recordGet texFooB.imports "bar" = recordGet texCanvas200.imports "bar" := by
  have h := C8_register_import_overwrites texCanvas200 "foo" "A" "B"
    { texCanvas200 with imports := recordSet [] "foo" "A" } texFooB rfl rfl
  exact ⟨h.1, h.2.1 "bar" (by simp)⟩

/-- C10: the readiness check answers `false` for a null source, `true` for
every canvas (the catch-all branch), `complete && naturalHeight > 0` for
images and `readyState > 2` for videos; hence texture construction and
`update` on a non-disposed texture always succeed for a canvas source and
can fail with `SourceNotReady` only for image, video or absent sources. -/
theorem C10_readiness_never_rejects_canvas :
    glueIsSourceLoaded Option.none = false ∧
    (∀ w h, glueIsSourceLoaded
      (Option.some (GlueSourceType.canvas w h)) = true) ∧
    (∀ c nw nh, glueIsSourceLoaded
      (Option.some (GlueSourceType.image c nw nh))
        = (c && decide (nh > 0))) ∧
    (∀ rs vw vh, glueIsSourceLoaded
      (Option.some (GlueSourceType.video rs vw vh)) = decide (rs > 2)) ∧
    (∀ w h, ∃ t, newGlueTexture
      (Option.some (GlueSourceType.canvas w h)) = Except.ok t) ∧
    (∀ (t : GlueTexture) w h, t.disposed = false →
      ∃ u, t.update (Option.some (GlueSourceType.canvas w h))
        = Except.ok u) := by
  refine ⟨rfl, fun w h => rfl, fun c nw nh => rfl, fun rs vw vh => rfl,
    ?_, ?_⟩
  · intro w h
    exact ⟨_, newGlueTexture_ok (GlueSourceType.canvas w h) rfl⟩
  · intro t w h hd
    refine ⟨{ t with
        width := w
        height := h
        source := GlueSourceType.canvas w h }, ?_⟩
    simp [GlueTexture.update, GlueTexture.checkDisposed, hd,
      glueIsSourceLoaded, glueGetSourceDimensions]

/-- Witness for C10: concrete readiness answers and a successful
construction and update from a 3×4 canvas. -/
theorem C10_witness :
    glueIsSourceLoaded (Option.some (GlueSourceType.canvas 3 4)) = true ∧
    glueIsSourceLoaded (Option.some (GlueSourceType.image true 5 0)) = false ∧
    glueIsSourceLoaded (Option.some (GlueSourceType.video 2 8 8)) = false ∧
    exceptIsOk (newGlueTexture
      (Option.some (GlueSourceType.canvas 3 4))) = true ∧
    exceptIsOk (texCanvas200.update
      (Option.some (GlueSourceType.canvas 3 4))) = true := by
  have h := C10_readiness_never_rejects_canvas
  obtain ⟨t, ht⟩ := h.2.2.2.2.1 3 4
  obtain ⟨u, hu⟩ := h.2.2.2.2.2 texCanvas200 3 4 rfl
  refine ⟨h.2.1 3 4, ?_, ?_, ?_, ?_⟩
  · rw [h.2.2.1 true 5 0]
    norm_num
  · rw [h.2.2.2.1 2 8 8]
    norm_num
  · rw [ht]
    rfl
  · rw [hu]
    rfl
